import Mathlib

/-!
Verification of the mirror_parser_bot message-relay pipeline.

This file gives a shallow embedding of the repository's core components
(src/config.py, src/database.py, src/normalizer.py, src/listener.py,
src/sender.py, src/main.py) and proves properties of that embedding.

Modelling conventions:
- Telegram/Telethon message objects become the structure TLMessage, keeping
  exactly the attributes the code reads (id, chat_id, date, grouped_id,
  message text, entities, reply_to header, media flags).
- Python truthiness on optional integers (None and 0 are falsy) is modelled
  by truthyOpt.
- The async database becomes a list of rows with the unique index of
  ProcessedMessage.__table_args__ enforced at insert time; errors become
  Except values (SQLAlchemy IntegrityError -> DBError.integrityError).
- The per-chat processor coroutine of listener.py becomes a step function
  over an explicit album-buffer state; its externally visible actions
  (outbound queue puts and idempotency-store inserts) are recorded in
  order as a trace of Effect values.  Media downloads are an external
  call the code performs between normalize and enqueue; they do not touch
  the queue or the store and are not traced.
- Timestamps are integer seconds; message.date and the current time are
  passed explicitly.
-/

/-- Route from src/config.py: dataclass Route(name, source_id, target_id,
source_topic_id=None). -/
structure Route where
  name : String
  source_id : Int
  target_id : Int
  source_topic_id : Option Int := none
deriving DecidableEq

/-- Python truthiness of an optional integer: None and 0 are falsy. -/
def truthyOpt : Option Int → Bool
  | none => false
  | some v => decide (v ≠ 0)

/-- Reply header of a Telethon message (message.reply_to): the attributes
read by the code are reply_to_top_id, forum_topic and reply_to_msg_id. -/
structure ReplyHeader where
  reply_to_top_id : Option Int := none
  forum_topic : Bool := false
  reply_to_msg_id : Option Int := none
deriving DecidableEq

/-- Telethon document attribute: the code only tests for
DocumentAttributeAnimated (normalizer.py line 111). -/
inductive DocAttr where
  | animated
  | other
deriving DecidableEq

/-- The document behind message.document: the code reads only mime_type. -/
structure TLDocument where
  mime_type : String := ""
deriving DecidableEq

/-- The document behind message.video: the code reads only attributes. -/
structure TLVideo where
  attributes : List DocAttr := []
deriving DecidableEq

/-- Telethon formatting entity (normalizer.py map_entities): one
constructor per isinstance branch, plus unknown for every other entity
type, which map_entities drops. -/
inductive TLEntity where
  | bold (offset length : Nat)
  | italic (offset length : Nat)
  | code (offset length : Nat)
  | pre (offset length : Nat) (language : String)
  | textUrl (offset length : Nat) (url : String)
  | url (offset length : Nat)
  | mention (offset length : Nat)
  | underline (offset length : Nat)
  | strike (offset length : Nat)
  | spoiler (offset length : Nat)
  | customEmoji (offset length : Nat) (document_id : Int)
  | unknown (offset length : Nat)
deriving DecidableEq

/-- The Telethon message, restricted to the attributes the repository
reads.  reply_to_top_id is the direct attribute probed by
Listener._extract_topic_id via getattr(message, "reply_to_top_id", None);
sticker/photo/voice/audio are presence flags (the code only tests them
for truthiness); document and video carry the fields the code reads. -/
structure TLMessage where
  id : Int := 0
  chat_id : Int := 0
  date : Int := 0
  grouped_id : Option Int := none
  message : Option String := none
  entities : Option (List TLEntity) := none
  reply_to : Option ReplyHeader := none
  reply_to_top_id : Option Int := none
  sticker : Bool := false
  document : Option TLDocument := none
  photo : Bool := false
  video : Option TLVideo := none
  voice : Bool := false
  audio : Bool := false
deriving DecidableEq

/-- Bot-API entity dict built by map_entities: keys type/offset/length
always present, url only for text_link, language only for pre,
custom_emoji_id only for custom_emoji. -/
structure ApiEntity where
  type : String
  offset : Nat
  length : Nat
  url : Option String := none
  language : Option String := none
  custom_emoji_id : Option String := none
deriving DecidableEq

/-- UnifiedMessage dataclass from src/normalizer.py with its defaults. -/
structure UnifiedMessage where
  text : String := ""
  entities : List ApiEntity := []
  media_path : Option String := none
  media_type : Option String := none
  grouped_id : Option Int := none
  reply_to_msg_id : Option Int := none
  source_chat_id : Int := 0
  source_topic_id : Option Int := none
  source_message_id : Int := 0
  date : Int := 0
  is_album_part : Bool := false
deriving DecidableEq

/-- Number of UTF-16 code units of a string, as computed by
len(text.encode(\x27utf-16-le\x27)) // 2: one unit per scalar below
0x10000, two units per scalar above. -/
def utf16Len (s : String) : Nat :=
  s.data.foldl (fun n c => n + (if c.toNat < 65536 then 1 else 2)) 0

namespace Normalizer

/-- get_effective_text: message.message or "". -/
def get_effective_text (m : TLMessage) : String :=
  m.message.getD ""

/-- Translation of one Telethon entity by the isinstance chain of
map_entities; none for entity types with no branch (dropped). -/
def mapEntity : TLEntity → Option ApiEntity
  | .bold o l => some { type := "bold", offset := o, length := l }
  | .italic o l => some { type := "italic", offset := o, length := l }
  | .code o l => some { type := "code", offset := o, length := l }
  | .pre o l lang => some { type := "pre", offset := o, length := l, language := some lang }
  | .textUrl o l u => some { type := "text_link", offset := o, length := l, url := some u }
  | .url o l => some { type := "url", offset := o, length := l }
  | .mention o l => some { type := "mention", offset := o, length := l }
  | .underline o l => some { type := "underline", offset := o, length := l }
  | .strike o l => some { type := "strikethrough", offset := o, length := l }
  | .spoiler o l => some { type := "spoiler", offset := o, length := l }
  | .customEmoji o l did =>
      some { type := "custom_emoji", offset := o, length := l,
             custom_emoji_id := some (toString did) }
  | .unknown _ _ => none

/-- map_entities from src/normalizer.py.  The text parameter is unused by
the code but kept in the signature.  A missing (None) entity list yields
[]. -/
def map_entities (telethon_entities : Option (List TLEntity)) (text : String) :
    List ApiEntity :=
  match telethon_entities with
  | none => []
  | some ents => ents.filterMap mapEntity

/-- MIME types the code treats as a sticker container
(normalizer.py lines 97-103). -/
def stickerMimeType (mt : String) : Bool :=
  mt == "image/webp" || mt == "application/x-tgsticker" || mt == "video/webm"

/-- determine_media_type from src/normalizer.py lines 89-121, keeping the
exact order: sticker, document with sticker MIME, photo, video (animation
when an Animated attribute is present), voice, audio, document, none. -/
def determine_media_type (m : TLMessage) : Option String :=
  if m.sticker then some "sticker"
  else if (match m.document with
           | some d => stickerMimeType d.mime_type
           | none => false) then some "sticker"
  else if m.photo then some "photo"
  else
    match m.video with
    | some v =>
      if v.attributes.contains DocAttr.animated then some "animation" else some "video"
    | none =>
      if m.voice then some "voice"
      else if m.audio then some "audio"
      else if m.document.isSome then some "document"
      else none

/-- Topic extraction inside normalize (normalizer.py lines 126-134):
topic_id = reply_to.reply_to_top_id; if it is falsy (None or 0) and
reply_to.forum_topic, fall back to reply_to.reply_to_msg_id. -/
def normalizeTopicId (m : TLMessage) : Option Int :=
  match m.reply_to with
  | none => none
  | some rh =>
    if !truthyOpt rh.reply_to_top_id && rh.forum_topic then rh.reply_to_msg_id
    else rh.reply_to_top_id

/-- Footer string appended by normalize (normalizer.py line 153). -/
def footer_text : String := "\n\n@mirors_sliv"

/-- normalize from src/normalizer.py lines 123-190.  The UnifiedMessage
constructor call sets source_chat_id, source_topic_id, source_message_id,
date, grouped_id and is_album_part; reply_to_msg_id is never assigned
anywhere in normalize, so it keeps the dataclass default None.  Then the
text, the mapped entities, the footer and its mention entity, and the
media type are filled in.  media_path is assigned by the Listener after
download, not here. -/
def normalize (m : TLMessage) : UnifiedMessage :=
  let topic_id := normalizeTopicId m
  let text0 := get_effective_text m
  let ents := map_entities m.entities text0
  let current_len_utf16 := utf16Len text0
  let finalText :=
    if 0 < current_len_utf16 then text0 ++ footer_text else "@mirors_sliv"
  let offset := if 0 < current_len_utf16 then current_len_utf16 + 1 else 0
  { source_chat_id := m.chat_id
    source_topic_id := topic_id
    source_message_id := m.id
    date := m.date
    grouped_id := m.grouped_id
    is_album_part := truthyOpt m.grouped_id
    text := finalText
    entities := ents ++ [{ type := "mention", offset := offset, length := 12 }]
    media_type := determine_media_type m
    media_path := none
    reply_to_msg_id := none }

end Normalizer

/-! Idempotency store: src/database.py. -/

/-- One row of the processed_messages table (class ProcessedMessage); id
and created_at are omitted (never read by the code under test). -/
structure ProcessedRow where
  route_name : String
  source_chat_id : Int
  source_message_id : Int
  grouped_id : Option Int := none
  target_message_id : Option Int := none
deriving DecidableEq

/-- Database-level failures surfaced to callers.  The unique index
idx_unique_message on (route_name, source_chat_id, source_message_id)
makes a duplicate insert raise sqlalchemy.exc.IntegrityError, which
Deduper.add_processed re-raises after rollback. -/
inductive DBError where
  | integrityError
deriving DecidableEq

namespace Deduper

/-- The WHERE clause shared by is_processed and the unique index: same
route name, the route's source chat id, and the message id. -/
def rowMatches (route : Route) (message_id : Int) (row : ProcessedRow) : Bool :=
  row.route_name == route.name && row.source_chat_id == route.source_id &&
    row.source_message_id == message_id

/-- Deduper.is_processed (database.py lines 57-67): a matching row exists. -/
def is_processed (db : List ProcessedRow) (route : Route) (message_id : Int) : Bool :=
  db.any (rowMatches route message_id)

/-- The ProcessedMessage(...) row built by add_processed. -/
def newRow (route : Route) (message_id : Int) (grouped_id : Option Int) :
    ProcessedRow :=
  { route_name := route.name, source_chat_id := route.source_id,
    source_message_id := message_id, grouped_id := grouped_id }

/-- Deduper.add_processed (database.py lines 69-84): insert one row; the
unique index rejects a second row for the same triple with
IntegrityError, which the code rolls back and re-raises, leaving the
table unchanged. -/
def add_processed (db : List ProcessedRow) (route : Route) (message_id : Int)
    (grouped_id : Option Int) : Except DBError (List ProcessedRow) :=
  if db.any (rowMatches route message_id) then .error .integrityError
  else .ok (db ++ [newRow route message_id grouped_id])

end Deduper

/-! Ingestion filters: Listener._extract_topic_id and
Listener._should_process (src/listener.py lines 190-225). -/

namespace Listener

/-- Listener._extract_topic_id: probe the direct reply_to_top_id
attribute first (a falsy value, None or 0, does not return); then the
reply header's reply_to_top_id; then, for forum replies, the header's
reply_to_msg_id; else None. -/
def extract_topic_id (m : TLMessage) : Option Int :=
  if truthyOpt m.reply_to_top_id then m.reply_to_top_id
  else
    match m.reply_to with
    | none => none
    | some rh =>
      if truthyOpt rh.reply_to_top_id then rh.reply_to_top_id
      else if rh.forum_topic then rh.reply_to_msg_id
      else none

/-- Lowercasing of text_content.lower(), per character. -/
def lowerStr (s : String) : String :=
  String.mk (s.data.map Char.toLower)

/-- w starts the character list t. -/
def startsWith : List Char → List Char → Bool
  | [], _ => true
  | _ :: _, [] => false
  | a :: as, b :: bs => a == b && startsWith as bs

/-- Python substring test: word in text. -/
def hasSub (w : List Char) : List Char → Bool
  | [] => startsWith w []
  | t@(_ :: rest) => startsWith w t || hasSub w rest

/-- Listener._should_process (listener.py lines 204-225): age filter
(skipped when allow_old), topic filter (only when route.source_topic_id
is truthy, i.e. set and nonzero), blacklist content filter.  The
blacklist is a parameter here: the code reads Config.BLACKLIST_WORDS,
an attribute src/config.py never defines, so in the running program a
nonempty text raises AttributeError at step 3 and the message is skipped
by the processor's exception handler; steps 1 and 2 and the empty-text
path are unaffected, and no claim under study depends on step 3. -/
def should_process (now : Int) (m : TLMessage) (route : Route) (allow_old : Bool)
    (blacklist_words : List String) : Bool :=
  if !allow_old && decide (now - m.date > 300) then false
  else if truthyOpt route.source_topic_id
          && decide (extract_topic_id m ≠ route.source_topic_id) then false
  else
    let text_content := Normalizer.get_effective_text m
    if text_content != ""
        && blacklist_words.any (fun w => hasSub w.data (lowerStr text_content).data) then
      false
    else true

/-! The per-chat processor (Listener._chat_processor, listener.py lines
58-128) as a step function.  Its externally visible actions are traced in
order: each queue.put becomes an enqueue effect, each
deduper.add_processed becomes a markProcessed effect. -/

/-- One observable action of the per-chat processor, in program order. -/
inductive Effect where
  | enqueueSingle (route : Route) (payload : UnifiedMessage)
  | enqueueAlbum (route : Route) (payload : List UnifiedMessage)
  | markProcessed (route : Route) (message_id : Int) (grouped_id : Option Int)
deriving DecidableEq

/-- The album buffer local to one _chat_processor coroutine. -/
structure AlbumState where
  album_id : Option Int := none
  album_messages : List TLMessage := []
  album_route : Option Route := none
deriving DecidableEq

/-- Ordering relation used by messages.sort(key=lambda m: m.id). -/
def msgLe (a b : TLMessage) : Prop := a.id ≤ b.id

instance : DecidableRel msgLe := fun a b => Int.decLe a.id b.id

instance : IsTotal TLMessage msgLe := ⟨fun a b => Int.le_total a.id b.id⟩

instance : IsTrans TLMessage msgLe := ⟨fun _ _ _ h1 h2 => le_trans h1 h2⟩

/-- The in-place messages.sort(key=lambda m: m.id): a stable sort by
ascending id. -/
def sortById (ms : List TLMessage) : List TLMessage :=
  List.insertionSort msgLe ms

/-- Listener._flush_album (listener.py lines 175-188): nothing happens
for an empty buffer or missing route; otherwise sort by id, normalize
each part (the media download in between is an external call that does
not touch queue or store), and put the whole group on the outbound
queue once. -/
def flush_album (route : Option Route) (messages : List TLMessage) : List Effect :=
  match route with
  | none => []
  | some r =>
    if messages = [] then []
    else [Effect.enqueueAlbum r ((sortById messages).map Normalizer.normalize)]

/-- Listener._process_single_message (listener.py lines 166-173):
normalize, download media if any, put on the outbound queue, and only
then add_processed — the queue.put comes first in program order. -/
def processSingleEffects (route : Route) (m : TLMessage) : List Effect :=
  [Effect.enqueueSingle route (Normalizer.normalize m),
   Effect.markProcessed route m.id none]

/-- Lines 98-123 of listener.py, for one message that passed
_should_process and the is_processed check on one route:
- grouped message continuing the current album: append to the buffer and
  mark processed at once;
- grouped message for a different (or no current) album: flush any old
  album first, start the new buffer, mark processed at once;
- standalone message: flush any pending album first (album_route is left
  as-is by the code in this branch), then enqueue-then-mark. -/
def handleAdmitted (s : AlbumState) (m : TLMessage) (route : Route) :
    AlbumState × List Effect :=
  if truthyOpt m.grouped_id then
    if s.album_id = m.grouped_id then
      ({ s with album_messages := s.album_messages ++ [m] },
       [Effect.markProcessed route m.id m.grouped_id])
    else
      ({ album_id := m.grouped_id, album_messages := [m], album_route := some route },
       (if s.album_id.isSome then flush_album s.album_route s.album_messages else [])
         ++ [Effect.markProcessed route m.id m.grouped_id])
  else
    if s.album_id.isSome then
      ({ album_id := none, album_messages := [], album_route := s.album_route },
       flush_album s.album_route s.album_messages ++ processSingleEffects route m)
    else
      (s, processSingleEffects route m)

/-- An input to the per-chat processor loop: either the inbound queue
yields (message, allow_old), or the 2-second asyncio.wait_for expires
while an album is pending. -/
inductive ChatEvent where
  | recv (now : Int) (m : TLMessage) (allow_old : Bool)
  | timeout
deriving DecidableEq

/-- State of one run of the processor: album buffer, the idempotency
rows visible to this chat as (route_name, message_id) pairs
(source_chat_id is fixed by the route), and the effect trace so far. -/
structure RunState where
  album : AlbumState
  marked : List (String × Int)
  trace : List Effect
deriving DecidableEq

/-- Pairs inserted into the store by the effects of one step. -/
def marksOf (effs : List Effect) : List (String × Int) :=
  effs.filterMap fun e =>
    match e with
    | .markProcessed r i _ => some (r.name, i)
    | _ => none

/-- Body of the for-route loop (listener.py lines 91-123) for one route:
_should_process then is_processed gate, then handleAdmitted; the new
marks extend the visible store. -/
def routeStep (bl : List String) (now : Int) (m : TLMessage) (allow_old : Bool)
    (st : RunState) (route : Route) : RunState :=
  if should_process now m route allow_old bl
      && !(st.marked.contains (route.name, m.id)) then
    let step := handleAdmitted st.album m route
    ⟨step.1, st.marked ++ marksOf step.2, st.trace ++ step.2⟩
  else st

/-- One iteration of the while-loop: a received message runs the
for-route loop; a wait_for timeout (reachable only while an album is
pending) flushes the album and resets the buffer (lines 74-80). -/
def chatStep (bl : List String) (routes : List Route) (st : RunState) :
    ChatEvent → RunState
  | .recv now m allow_old => routes.foldl (routeStep bl now m allow_old) st
  | .timeout =>
    if st.album.album_id.isSome then
      ⟨{ album_id := none, album_messages := [], album_route := none },
       st.marked,
       st.trace ++ flush_album st.album.album_route st.album.album_messages⟩
    else st

/-- A whole run of one chat's processor over a sequence of events,
starting from an empty album buffer and a given pre-existing store. -/
def runChat (bl : List String) (routes : List Route)
    (marked0 : List (String × Int)) (evs : List ChatEvent) : RunState :=
  evs.foldl (chatStep bl routes) ⟨{}, marked0, []⟩

/-- e is an add_processed for message id i. -/
def effectMarks : Effect → Int → Bool
  | .markProcessed _ i _, j => i == j
  | _, _ => false

/-- e is a queue.put whose payload contains message id i. -/
def effectEnqueues : Effect → Int → Bool
  | .enqueueSingle _ u, j => u.source_message_id == j
  | .enqueueAlbum _ us, j => us.any (fun u => u.source_message_id == j)
  | .markProcessed _ _ _, _ => false

/-- Some effect of t marks message id i. -/
def markedIn (t : List Effect) (i : Int) : Prop :=
  ∃ e ∈ t, effectMarks e i = true

/-- Every message carried by an album enqueue was marked strictly
earlier in the trace. -/
def albumsMarkedBeforeEnqueue (effs : List Effect) : Prop :=
  ∀ t1 r us t2, effs = t1 ++ Effect.enqueueAlbum r us :: t2 →
    ∀ u ∈ us, markedIn t1 u.source_message_id

/-- The claim C1 property, as stated: no mark of a message id ever
appears strictly after an enqueue carrying that id, on any run. -/
def marksNeverAfterEnqueue (effs : List Effect) : Prop :=
  ∀ t1 e t2, effs = t1 ++ e :: t2 → ∀ i, effectMarks e i = true →
    ∀ e2 ∈ t1, effectEnqueues e2 i = false

/-- Claim C1 quantified over every run of the per-chat processor. -/
def claimMarkBeforeEnqueue : Prop :=
  ∀ (bl : List String) (routes : List Route) (marked0 : List (String × Int))
    (evs : List ChatEvent),
    marksNeverAfterEnqueue (runChat bl routes marked0 evs).trace

end Listener

/-! Delivery worker sends: src/sender.py. -/

/-- Outcome of one attempt of bot.send_* for a single message: the
TelegramRetryAfter exception with its retry_after seconds, success with
the new message id, or any other exception. -/
inductive SendOutcome where
  | retryAfter (seconds : Nat)
  | success (message_id : Int)
  | failure
deriving DecidableEq

/-- Outcome of one attempt of bot.send_media_group. -/
inductive AlbumOutcome where
  | retryAfter (seconds : Nat)
  | success (message_ids : List Int)
  | failure
deriving DecidableEq

/-- What a send performed: the sleeps executed (in order) and the value
returned to the caller. -/
structure SendRun where
  sleeps : List Nat
  result : Option Int
deriving DecidableEq

/-- What an album send performed. -/
structure AlbumSendRun where
  sleeps : List Nat
  result : List Int
deriving DecidableEq

namespace BotSender

/-- BotSender.send_message (sender.py lines 26-85) against the sequence
of outcomes the platform would return for successive attempts:
TelegramRetryAfter sleeps retry_after seconds (_handle_flood_wait) and
retries the same send; success returns the message id; any other
exception is logged and None is returned, the remaining outcomes never
being consulted.  The empty list cannot arise from a real execution
(every attempt has an outcome) and returns the no-result value. -/
def send_message : List SendOutcome → SendRun
  | [] => { sleeps := [], result := none }
  | .retryAfter n :: rest =>
    let r := send_message rest
    { sleeps := n :: r.sleeps, result := r.result }
  | .success mid :: _ => { sleeps := [], result := some mid }
  | .failure :: _ => { sleeps := [], result := none }

/-- BotSender.send_album (sender.py lines 87-133): identical retry
structure; failure returns the empty id list. -/
def send_album : List AlbumOutcome → AlbumSendRun
  | [] => { sleeps := [], result := [] }
  | .retryAfter n :: rest =>
    let r := send_album rest
    { sleeps := n :: r.sleeps, result := r.result }
  | .success mids :: _ => { sleeps := [], result := mids }
  | .failure :: _ => { sleeps := [], result := [] }

end BotSender

/-! Store initialization and migration: Database.init_db
(src/database.py lines 33-48). -/

/-- A Python error reaching the caller of init_db. -/
inductive PyError where
  | nameError (name : String)
deriving DecidableEq

/-- The sqlite file behind the engine: whether processed_messages
exists, its column names, and how many rows it holds. -/
structure DBFile where
  tableExists : Bool
  columns : List String
  rows : Nat
deriving DecidableEq

/-- Columns of processed_messages as declared by the ProcessedMessage
model (database.py lines 12-26). -/
def modelColumns : List String :=
  ["id", "route_name", "source_chat_id", "source_message_id", "grouped_id",
   "target_message_id", "created_at"]

/-- Module-level names bound in src/database.py: its imports (lines 1-8)
and its top-level definitions.  The module has no import logging and no
logger = ... binding, so the name logger is unbound there. -/
def databaseModuleNames : List String :=
  ["datetime", "Optional", "Column", "Integer", "String", "DateTime", "Index",
   "create_async_engine", "AsyncSession", "async_sessionmaker",
   "declarative_base", "select", "Config", "Base", "ProcessedMessage",
   "Database", "Deduper"]

namespace Database

/-- Base.metadata.create_all: creates the table with the model's columns
when missing; an existing table (and its rows) is left untouched. -/
def create_all (db : DBFile) : DBFile :=
  if db.tableExists then db
  else { tableExists := true, columns := modelColumns, rows := 0 }

/-- Database.init_db: create_all, then read PRAGMA table_info; when
target_message_id is missing the code first runs logger.info(...) —
looking up the name logger in the module namespace.  Since database.py
never binds logger, that lookup raises NameError; the except handler
then evaluates logger.error(...), raising NameError again, this time
uncaught, so init_db fails.  (Had logger been bound, the ALTER TABLE
would add the column non-destructively.) -/
def init_db (db : DBFile) : Except PyError DBFile :=
  let db := create_all db
  if "target_message_id" ∈ db.columns then .ok db
  else if "logger" ∈ databaseModuleNames then
    .ok { db with columns := db.columns ++ ["target_message_id"] }
  else .error (.nameError "logger")

end Database

/-- The source-side id this message replies to, read off the reply
header — the value claim C5 says normalize should copy into
reply_to_msg_id. -/
def repliedToId (m : TLMessage) : Option Int :=
  match m.reply_to with
  | some rh => rh.reply_to_msg_id
  | none => none

/-- Modelled from the spec: the media classification written as the
ordered predicate list of claim C8 ("sticker > document whose MIME type
indicates a sticker container > photo > animated-video > video > voice >
audio > generic document > none"), to be compared with
determine_media_type from the code. -/
def mediaPrecedence : List ((TLMessage → Bool) × String) :=
  [ (fun m => m.sticker, "sticker"),
    (fun m => (m.document.map (fun d => Normalizer.stickerMimeType d.mime_type)).getD false,
      "sticker"),
    (fun m => m.photo, "photo"),
    (fun m => (m.video.map (fun v => v.attributes.contains DocAttr.animated)).getD false,
      "animation"),
    (fun m => m.video.isSome, "video"),
    (fun m => m.voice, "voice"),
    (fun m => m.audio, "audio"),
    (fun m => m.document.isSome, "document") ]

/-- First predicate that matches wins; none otherwise. -/
def firstMatch : List ((TLMessage → Bool) × String) → TLMessage → Option String
  | [], _ => none
  | (p, tag) :: rest, m => if p m then some tag else firstMatch rest m

/-- Claim C9 as stated: a route with source_topic_id set to T rejects
every message whose resolved topic id is not exactly T (including
messages with no resolvable topic). -/
def topicFilterClaim : Prop :=
  ∀ (route : Route) (T : Int), route.source_topic_id = some T →
    ∀ (now : Int) (m : TLMessage) (allow_old : Bool) (bl : List String),
      Listener.extract_topic_id m ≠ some T →
      Listener.should_process now m route allow_old bl = false

/-! Concrete inputs used by counterexamples and witnesses. -/

/-- Route r1: chat 100 to chat 200, no topic restriction. -/
def exRoute : Route := { name := "r1", source_id := 100, target_id := 200 }

/-- A fresh standalone text-less message in chat 100. -/
def exStandalone : TLMessage := { id := 1, chat_id := 100 }

/-- A plain (non-forum) reply to message 42. -/
def exReplyMsg : TLMessage :=
  { id := 2, chat_id := 100,
    reply_to := some { reply_to_msg_id := some 42 } }

/-- A message inside forum topic 5. -/
def exTopicMsg : TLMessage := { id := 3, chat_id := 100, reply_to_top_id := some 5 }

/-- A route whose source_topic_id is set to 0 (int(sourceTopicId) in
config.py accepts it); Python truthiness then skips the topic filter. -/
def exZeroTopicRoute : Route :=
  { name := "r0", source_id := 100, target_id := 200, source_topic_id := some 0 }

/-- A message in forum topic 99, used against a route requiring 55. -/
def exWrongTopicMsg : TLMessage :=
  { id := 4, chat_id := 1, reply_to := some { reply_to_top_id := some 99 } }

/-- Album part with grouped_id 7 and id 10. -/
def exAlbum10 : TLMessage := { id := 10, chat_id := 100, grouped_id := some 7 }

/-- Album part with grouped_id 7 and id 9, arriving after id 10. -/
def exAlbum9 : TLMessage := { id := 9, chat_id := 100, grouped_id := some 7 }

/-- Event sequence: parts 10 then 9 of album 7 arrive, then the
inactivity window expires. -/
def exAlbumEvs : List Listener.ChatEvent :=
  [Listener.ChatEvent.recv 0 exAlbum10 false,
   Listener.ChatEvent.recv 0 exAlbum9 false,
   Listener.ChatEvent.timeout]

/-- An album-collecting state: the buffer holds exAlbum10 for exRoute. -/
def exPendingAlbum : Listener.AlbumState :=
  { album_id := some 7, album_messages := [exAlbum10], album_route := some exRoute }

/-- A standalone message arriving during album collection. -/
def exStandalone11 : TLMessage := { id := 11, chat_id := 100 }

/-- A legacy store: processed_messages created by the pre-target-id
schema, holding 7 rows. -/
def exLegacyDB : DBFile :=
  { tableExists := true,
    columns := ["id", "route_name", "source_chat_id", "source_message_id",
                "grouped_id", "created_at"],
    rows := 7 }


/-! Theorems. -/

/-- C2: after add_processed succeeds once for (route, message_id), a
second call for the same pair fails with the duplicate-key
IntegrityError and leaves exactly one matching row, is_processed is true,
and stays true after any later successful insert. -/
theorem C2_dedup_unique (db db' : List ProcessedRow) (route : Route) (mid : Int)
    (gid gid' : Option Int)
    (h : Deduper.add_processed db route mid gid = .ok db') :
    Deduper.add_processed db' route mid gid' = .error .integrityError
    ∧ Deduper.is_processed db' route mid = true
    ∧ (db'.filter (Deduper.rowMatches route mid)).length = 1
    ∧ (∀ route2 mid2 gid2 db'',
        Deduper.add_processed db' route2 mid2 gid2 = .ok db'' →
        Deduper.is_processed db'' route mid = true) := by
  unfold Deduper.add_processed at h
  by_cases hany : db.any (Deduper.rowMatches route mid) = true
  · simp [hany] at h
  · rw [if_neg hany] at h
    cases h
    have hself : Deduper.rowMatches route mid (Deduper.newRow route mid gid) = true := by
      simp [Deduper.rowMatches, Deduper.newRow]
    have hproc : Deduper.is_processed (db ++ [Deduper.newRow route mid gid])
        route mid = true := by
      simp [Deduper.is_processed, List.any_append, hself]
    refine ⟨?_, hproc, ?_, ?_⟩
    · unfold Deduper.add_processed
      rw [if_pos]
      exact hproc
    · have hnil : db.filter (Deduper.rowMatches route mid) = [] := by
        rw [List.filter_eq_nil_iff]
        intro a ha
        exact List.any_eq_false.mp (Bool.eq_false_iff.mpr hany) a ha
      rw [List.filter_append, hnil, List.nil_append]
      simp [hself]
    · intro route2 mid2 gid2 db'' h2
      unfold Deduper.add_processed at h2
      by_cases hany2 : (db ++ [Deduper.newRow route mid gid]).any
          (Deduper.rowMatches route2 mid2) = true
      · simp [hany2] at h2
      · rw [if_neg hany2] at h2
        cases h2
        have hp : (db ++ [Deduper.newRow route mid gid]).any
            (Deduper.rowMatches route mid) = true := hproc
        simp [Deduper.is_processed, List.any_append] at hp ⊢
        tauto

/-- C2 witness: the concrete scenario of tests/test_database.py
(route "route_dupe", message 5): first insert succeeds, the duplicate
insert raises IntegrityError, is_processed is true. -/
theorem C2_dedup_unique_witness :
    Deduper.add_processed
      [Deduper.newRow { name := "route_dupe", source_id := 100, target_id := 200 } 5 none]
      { name := "route_dupe", source_id := 100, target_id := 200 } 5 none
      = .error .integrityError
    ∧ Deduper.is_processed
      [Deduper.newRow { name := "route_dupe", source_id := 100, target_id := 200 } 5 none]
      { name := "route_dupe", source_id := 100, target_id := 200 } 5 = true := by
  have h := C2_dedup_unique []
    [Deduper.newRow { name := "route_dupe", source_id := 100, target_id := 200 } 5 none]
    { name := "route_dupe", source_id := 100, target_id := 200 } 5 none none rfl
  exact ⟨h.1, h.2.1⟩

/-- C5 counterexample: normalize does not propagate the replied-to id.
For the concrete reply exReplyMsg (a reply to message 42) the produced
UnifiedMessage has reply_to_msg_id = none, not some 42. -/
theorem C5_reply_not_threaded :
    ¬ ∀ m : TLMessage, (Normalizer.normalize m).reply_to_msg_id = repliedToId m :=
  fun h => absurd (h exReplyMsg) (by decide)

/-- C5 amended: normalize leaves reply_to_msg_id at its dataclass
default None for every input — the field is never assigned — so the
Delivery Worker's reply lookup (main.py lines 33 and 56) never fires. -/
theorem C5_reply_always_none (m : TLMessage) :
    (Normalizer.normalize m).reply_to_msg_id = none := rfl

/-- C7: a TelegramRetryAfter outcome makes the sender sleep the carried
number of seconds and retry the same send, for any number of
consecutive rate limits; success returns the id(s); any other failure
returns the no-result value at once, without sleeping and without
consulting further outcomes (dropped, not retried) — for single sends
and album sends alike. -/
theorem C7_flood_wait_retry_only :
    (∀ (n : Nat) (rest : List SendOutcome),
      BotSender.send_message (.retryAfter n :: rest)
        = { sleeps := n :: (BotSender.send_message rest).sleeps,
            result := (BotSender.send_message rest).result })
    ∧ (∀ (mid : Int) (rest : List SendOutcome),
      BotSender.send_message (.success mid :: rest)
        = { sleeps := [], result := some mid })
    ∧ (∀ rest : List SendOutcome,
      BotSender.send_message (.failure :: rest) = { sleeps := [], result := none })
    ∧ (∀ (ns : List Nat) (mid : Int),
      BotSender.send_message (ns.map SendOutcome.retryAfter ++ [.success mid])
        = { sleeps := ns, result := some mid })
    ∧ (∀ (n : Nat) (rest : List AlbumOutcome),
      BotSender.send_album (.retryAfter n :: rest)
        = { sleeps := n :: (BotSender.send_album rest).sleeps,
            result := (BotSender.send_album rest).result })
    ∧ (∀ (mids : List Int) (rest : List AlbumOutcome),
      BotSender.send_album (.success mids :: rest)
        = { sleeps := [], result := mids })
    ∧ (∀ rest : List AlbumOutcome,
      BotSender.send_album (.failure :: rest) = { sleeps := [], result := [] })
    ∧ (∀ (ns : List Nat) (mids : List Int),
      BotSender.send_album (ns.map AlbumOutcome.retryAfter ++ [.success mids])
        = { sleeps := ns, result := mids }) := by
  refine ⟨fun n rest => rfl, fun mid rest => rfl, fun rest => rfl, ?_,
          fun n rest => rfl, fun mids rest => rfl, fun rest => rfl, ?_⟩
  · intro ns mid
    induction ns with
    | nil => rfl
    | cons n ns ih => simp [BotSender.send_message, ih]
  · intro ns mids
    induction ns with
    | nil => rfl
    | cons n ns ih => simp [BotSender.send_album, ih]

/-- C10: opening a store created by the older schema without
target_message_id does not succeed — init_db raises NameError, because
the migration branch evaluates logger.info and logger.error while
database.py never binds the name logger.  A fresh store (table created
by create_all with the current columns) initializes fine; only the
documented migration path is broken. -/
theorem C10_migration_raises_nameerror :
    Database.init_db exLegacyDB = .error (.nameError "logger")
    ∧ Database.init_db { tableExists := false, columns := [], rows := 0 }
        = .ok { tableExists := true, columns := modelColumns, rows := 0 } :=
  ⟨rfl, rfl⟩

/-- C6: the footer mention entity appended by normalize is the last
entity, after all mapped entities; its offset is L + 1 (L the UTF-16
length of the original text) and its length is 12 when L > 0, and
offset 0, length 12 when L = 0, in which case the final text is exactly
the suffix with no leading separator. -/
theorem C6_footer_entity (m : TLMessage) :
    (Normalizer.normalize m).entities
      = Normalizer.map_entities m.entities (Normalizer.get_effective_text m)
        ++ [{ type := "mention",
              offset := if 0 < utf16Len (Normalizer.get_effective_text m) then
                  utf16Len (Normalizer.get_effective_text m) + 1 else 0,
              length := 12 }]
    ∧ (utf16Len (Normalizer.get_effective_text m) = 0 →
        (Normalizer.normalize m).text = "@mirors_sliv")
    ∧ (0 < utf16Len (Normalizer.get_effective_text m) →
        (Normalizer.normalize m).text
          = Normalizer.get_effective_text m ++ Normalizer.footer_text) := by
  refine ⟨rfl, ?_, ?_⟩
  · intro h0
    simp [Normalizer.normalize, h0]
  · intro hpos
    simp [Normalizer.normalize, hpos]

/-- C6 witness: for text "hi" (UTF-16 length 2) the only entity is the
mention at offset 3, length 12; for empty text the final text is exactly
the suffix. -/
theorem C6_footer_entity_witness :
    (Normalizer.normalize { id := 1, chat_id := 100, message := some "hi" }).entities
      = [{ type := "mention", offset := 3, length := 12 }]
    ∧ (Normalizer.normalize exStandalone).text = "@mirors_sliv" := by
  constructor
  · rw [(C6_footer_entity { id := 1, chat_id := 100, message := some "hi" }).1]
    decide
  · exact (C6_footer_entity exStandalone).2.1 (by decide)

/-- C8: determine_media_type is exactly the first-match evaluation of
the ordered predicate list sticker, sticker-MIME document, photo,
animated video, video, voice, audio, generic document. -/
theorem C8_media_precedence (m : TLMessage) :
    Normalizer.determine_media_type m = firstMatch mediaPrecedence m := by
  rcases m with ⟨mid, chat, date, gid, text, ents, rto, rtop, st, doc, ph, vid, vo, au⟩
  cases st <;> cases ph <;> cases vo <;> cases au <;>
    rcases doc with _ | d <;> rcases vid with _ | v <;>
      simp [Normalizer.determine_media_type, firstMatch, mediaPrecedence]

/-- C9 counterexample: the topic filter is keyed on Python truthiness,
so a route whose source_topic_id is set to 0 filters nothing: the
concrete message in topic 5 passes _should_process against
exZeroTopicRoute even though its topic differs from 0. -/
theorem C9_topic_filter_zero : ¬ topicFilterClaim := by
  intro h
  have hc := h exZeroTopicRoute 0 rfl 0 exTopicMsg false [] (by decide)
  exact absurd hc (by decide)

/-- C9 amended: for a route whose source_topic_id is set to a nonzero
value T, _should_process rejects every message whose resolved topic id
is not exactly T, including messages with no resolvable topic (the
truthiness guard on line 212 of listener.py skips the filter when the
configured value is 0). -/
theorem C9_topic_filter_nonzero (route : Route) (T : Int)
    (hT : route.source_topic_id = some T) (hT0 : T ≠ 0)
    (now : Int) (m : TLMessage) (allow_old : Bool) (bl : List String)
    (hne : Listener.extract_topic_id m ≠ some T) :
    Listener.should_process now m route allow_old bl = false := by
  unfold Listener.should_process
  rw [hT]
  have h1 : truthyOpt (some T) = true := by simp [truthyOpt, hT0]
  split
  · rfl
  · rw [h1]
    simp [hne]

/-- C9 witness: the scenario of tests/test_components.py
test_topic_filter — route requiring topic 55, message in topic 99 is
rejected. -/
theorem C9_topic_filter_nonzero_witness :
    Listener.should_process 0 exWrongTopicMsg
      { name := "topic_route", source_id := 1, target_id := 2,
        source_topic_id := some 55 } false [] = false :=
  C9_topic_filter_nonzero _ 55 rfl (by decide) 0 exWrongTopicMsg false []
    (by decide)

/-! Helper lemmas about the per-chat processor model. -/

theorem normalize_source_id (m : TLMessage) :
    (Normalizer.normalize m).source_message_id = m.id := rfl

theorem markedIn_append_left {t : List Listener.Effect} (new : List Listener.Effect)
    {i : Int} (h : Listener.markedIn t i) : Listener.markedIn (t ++ new) i := by
  obtain ⟨e, he, hm⟩ := h
  exact ⟨e, List.mem_append_left _ he, hm⟩

theorem markedIn_append_right (t : List Listener.Effect) {new : List Listener.Effect}
    {i : Int} (h : Listener.markedIn new i) : Listener.markedIn (t ++ new) i := by
  obtain ⟨e, he, hm⟩ := h
  exact ⟨e, List.mem_append_right _ he, hm⟩

theorem sortById_mem {a : TLMessage} {ms : List TLMessage} :
    a ∈ Listener.sortById ms ↔ a ∈ ms :=
  (List.perm_insertionSort Listener.msgLe ms).mem_iff

/-- The sorted, normalized batch flushed from a buffer is pairwise
ascending in source_message_id. -/
theorem sortById_map_sorted (ms : List TLMessage) :
    ((Listener.sortById ms).map Normalizer.normalize).Pairwise
      (fun a b => a.source_message_id ≤ b.source_message_id) := by
  have h := List.sorted_insertionSort Listener.msgLe ms
  exact List.Pairwise.map _
    (fun a b hab => by rw [normalize_source_id, normalize_source_id]; exact hab) h

theorem flush_album_mem {ro : Option Route} {ms : List TLMessage} {r : Route}
    {us : List UnifiedMessage}
    (h : Listener.Effect.enqueueAlbum r us ∈ Listener.flush_album ro ms) :
    ro = some r ∧ ms ≠ [] ∧ us = (Listener.sortById ms).map Normalizer.normalize := by
  cases ro with
  | none => simp [Listener.flush_album] at h
  | some r' =>
    by_cases hm : ms = []
    · simp [Listener.flush_album, hm] at h
    · simp only [Listener.flush_album, if_neg hm, List.mem_singleton] at h
      obtain ⟨hr, hus⟩ := Listener.Effect.enqueueAlbum.inj h
      exact ⟨by rw [hr], hm, hus⟩

/-- Branch equation: a grouped message continuing the current album. -/
theorem handleAdmitted_group_append {s : Listener.AlbumState} {m : TLMessage}
    (route : Route) (hg : truthyOpt m.grouped_id = true)
    (hsame : s.album_id = m.grouped_id) :
    Listener.handleAdmitted s m route
      = ({ s with album_messages := s.album_messages ++ [m] },
         [Listener.Effect.markProcessed route m.id m.grouped_id]) := by
  unfold Listener.handleAdmitted
  rw [if_pos hg, if_pos hsame]

/-- Branch equation: a grouped message starting a new album (flushing
any previous one). -/
theorem handleAdmitted_group_new {s : Listener.AlbumState} {m : TLMessage}
    (route : Route) (hg : truthyOpt m.grouped_id = true)
    (hdiff : ¬ s.album_id = m.grouped_id) :
    Listener.handleAdmitted s m route
      = ({ album_id := m.grouped_id, album_messages := [m],
           album_route := some route },
         (if s.album_id.isSome then
            Listener.flush_album s.album_route s.album_messages
          else [])
           ++ [Listener.Effect.markProcessed route m.id m.grouped_id]) := by
  unfold Listener.handleAdmitted
  rw [if_pos hg, if_neg hdiff]

/-- Branch equation: a standalone message while an album is pending. -/
theorem handleAdmitted_single_flush {s : Listener.AlbumState} {m : TLMessage}
    (route : Route) (hg : truthyOpt m.grouped_id = false)
    (hsome : s.album_id.isSome = true) :
    Listener.handleAdmitted s m route
      = ({ album_id := none, album_messages := [], album_route := s.album_route },
         Listener.flush_album s.album_route s.album_messages
           ++ Listener.processSingleEffects route m) := by
  unfold Listener.handleAdmitted
  rw [if_neg (by simp [hg]), if_pos hsome]

/-- Branch equation: a standalone message with no album pending. -/
theorem handleAdmitted_single_idle {s : Listener.AlbumState} {m : TLMessage}
    (route : Route) (hg : truthyOpt m.grouped_id = false)
    (hnone : s.album_id.isSome = false) :
    Listener.handleAdmitted s m route = (s, Listener.processSingleEffects route m) := by
  unfold Listener.handleAdmitted
  rw [if_neg (by simp [hg]), if_neg (by simp [hnone])]

/-- Every album enqueue emitted by one admission step carries the sorted
normalization of the pre-step buffer, which was nonempty and owned by
the buffered route. -/
theorem handleAdmitted_album_mem {s : Listener.AlbumState} {m : TLMessage}
    {route r : Route} {us : List UnifiedMessage}
    (h : Listener.Effect.enqueueAlbum r us ∈ (Listener.handleAdmitted s m route).2) :
    s.album_route = some r ∧ s.album_messages ≠ []
      ∧ us = (Listener.sortById s.album_messages).map Normalizer.normalize := by
  by_cases hg : truthyOpt m.grouped_id = true
  · by_cases hsame : s.album_id = m.grouped_id
    · rw [handleAdmitted_group_append route hg hsame] at h
      simp at h
    · rw [handleAdmitted_group_new route hg hsame] at h
      rcases List.mem_append.mp h with h | h
      · by_cases hsome : s.album_id.isSome = true
        · rw [if_pos hsome] at h
          exact flush_album_mem h
        · rw [if_neg hsome] at h
          simp at h
      · simp at h
  · have hg' : truthyOpt m.grouped_id = false := Bool.eq_false_iff.mpr hg
    by_cases hsome : s.album_id.isSome = true
    · rw [handleAdmitted_single_flush route hg' hsome] at h
      rcases List.mem_append.mp h with h | h
      · exact flush_album_mem h
      · simp [Listener.processSingleEffects] at h
    · rw [handleAdmitted_single_idle route hg'
          (Bool.eq_false_iff.mpr hsome)] at h
      simp [Listener.processSingleEffects] at h

/-- Extending a trace keeps albumsMarkedBeforeEnqueue, provided every
album enqueue among the new effects only carries messages already marked
in the old trace. -/
theorem ambe_extend {t new : List Listener.Effect}
    (h1 : Listener.albumsMarkedBeforeEnqueue t)
    (h2 : ∀ r us, Listener.Effect.enqueueAlbum r us ∈ new →
      ∀ u ∈ us, Listener.markedIn t u.source_message_id) :
    Listener.albumsMarkedBeforeEnqueue (t ++ new) := by
  intro t1 r us t2 heq u hu
  rcases List.append_eq_append_iff.mp heq with ⟨a, ha1, ha2⟩ | ⟨c, hc1, hc2⟩
  · have hmem : Listener.Effect.enqueueAlbum r us ∈ new := by
      rw [ha2]
      exact List.mem_append_right _ (List.mem_cons_self _ _)
    rw [ha1]
    exact markedIn_append_left _ (h2 r us hmem u hu)
  · cases c with
    | nil =>
      rw [List.nil_append] at hc2
      have hmem : Listener.Effect.enqueueAlbum r us ∈ new := by
        rw [← hc2]
        exact List.mem_cons_self _ _
      have ht1 : t = t1 := by simpa using hc1
      rw [← ht1]
      exact h2 r us hmem u hu
    | cons x c' =>
      rw [List.cons_append] at hc2
      injection hc2 with hx ht2
      exact h1 t1 r us c' (by rw [hc1, ← hx]) u hu

/-- Fold preservation of an invariant. -/
theorem foldl_inv {α β : Type} {P : α → Prop} {f : α → β → α}
    (hf : ∀ a b, P a → P (f a b)) :
    ∀ (l : List β) (a : α), P a → P (List.foldl f a l) := by
  intro l
  induction l with
  | nil => intro a h; exact h
  | cons b l ih => intro a h; exact ih (f a b) (hf a b h)

/-- One admission step preserves mark-before-album-enqueue and keeps
every buffered message marked in the trace. -/
theorem handleAdmitted_preserves {s : Listener.AlbumState} {t : List Listener.Effect}
    (m : TLMessage) (route : Route)
    (h1 : Listener.albumsMarkedBeforeEnqueue t)
    (h2 : ∀ mm ∈ s.album_messages, Listener.markedIn t mm.id) :
    Listener.albumsMarkedBeforeEnqueue (t ++ (Listener.handleAdmitted s m route).2)
    ∧ ∀ mm ∈ (Listener.handleAdmitted s m route).1.album_messages,
        Listener.markedIn (t ++ (Listener.handleAdmitted s m route).2) mm.id := by
  have hflush : ∀ r us,
      Listener.Effect.enqueueAlbum r us ∈ (Listener.handleAdmitted s m route).2 →
      ∀ u ∈ us, Listener.markedIn t u.source_message_id := by
    intro r us hmem u hu
    obtain ⟨_, _, hus⟩ := handleAdmitted_album_mem hmem
    subst hus
    obtain ⟨mm, hmm, rfl⟩ := List.mem_map.mp hu
    rw [normalize_source_id]
    exact h2 mm (sortById_mem.mp hmm)
  refine ⟨ambe_extend h1 hflush, ?_⟩
  by_cases hg : truthyOpt m.grouped_id = true
  · by_cases hsame : s.album_id = m.grouped_id
    · rw [handleAdmitted_group_append route hg hsame]
      intro mm hmm
      rcases List.mem_append.mp hmm with hmm | hmm
      · exact markedIn_append_left _ (h2 mm hmm)
      · have hm : mm = m := by simpa using hmm
        subst hm
        exact markedIn_append_right _
          ⟨Listener.Effect.markProcessed route mm.id mm.grouped_id,
           by simp, by simp [Listener.effectMarks]⟩
    · rw [handleAdmitted_group_new route hg hsame]
      intro mm hmm
      have hm : mm = m := by simpa using hmm
      subst hm
      exact markedIn_append_right _
        ⟨Listener.Effect.markProcessed route mm.id mm.grouped_id,
         List.mem_append_right _ (by simp), by simp [Listener.effectMarks]⟩
  · have hg' : truthyOpt m.grouped_id = false := Bool.eq_false_iff.mpr hg
    by_cases hsome : s.album_id.isSome = true
    · rw [handleAdmitted_single_flush route hg' hsome]
      intro mm hmm
      simp at hmm
    · rw [handleAdmitted_single_idle route hg' (Bool.eq_false_iff.mpr hsome)]
      intro mm hmm
      exact markedIn_append_left _ (h2 mm hmm)

/-- The for-route loop body preserves the combined invariant. -/
theorem routeStep_preserves (bl : List String) (now : Int) (m : TLMessage)
    (allow_old : Bool) (st : Listener.RunState) (route : Route)
    (h : Listener.albumsMarkedBeforeEnqueue st.trace
         ∧ ∀ mm ∈ st.album.album_messages, Listener.markedIn st.trace mm.id) :
    Listener.albumsMarkedBeforeEnqueue
        (Listener.routeStep bl now m allow_old st route).trace
    ∧ ∀ mm ∈ (Listener.routeStep bl now m allow_old st route).album.album_messages,
        Listener.markedIn (Listener.routeStep bl now m allow_old st route).trace
          mm.id := by
  unfold Listener.routeStep
  split
  · exact handleAdmitted_preserves m route h.1 h.2
  · exact h

/-- Reduction of chatStep on a received message. -/
theorem chatStep_recv (bl : List String) (routes : List Route)
    (st : Listener.RunState) (now : Int) (m : TLMessage) (allow_old : Bool) :
    Listener.chatStep bl routes st (.recv now m allow_old)
      = routes.foldl (Listener.routeStep bl now m allow_old) st := rfl

/-- Reduction of chatStep on a wait_for timeout. -/
theorem chatStep_timeout (bl : List String) (routes : List Route)
    (st : Listener.RunState) :
    Listener.chatStep bl routes st .timeout
      = if st.album.album_id.isSome then
          ⟨{ album_id := none, album_messages := [], album_route := none },
           st.marked,
           st.trace ++ Listener.flush_album st.album.album_route
             st.album.album_messages⟩
        else st := rfl

/-- One loop iteration (message or timeout) preserves the combined
invariant. -/
theorem chatStep_preserves (bl : List String) (routes : List Route)
    (st : Listener.RunState) (ev : Listener.ChatEvent)
    (h : Listener.albumsMarkedBeforeEnqueue st.trace
         ∧ ∀ mm ∈ st.album.album_messages, Listener.markedIn st.trace mm.id) :
    Listener.albumsMarkedBeforeEnqueue (Listener.chatStep bl routes st ev).trace
    ∧ ∀ mm ∈ (Listener.chatStep bl routes st ev).album.album_messages,
        Listener.markedIn (Listener.chatStep bl routes st ev).trace mm.id := by
  cases ev with
  | recv now m allow_old =>
    rw [chatStep_recv]
    exact foldl_inv (fun a b ha => routeStep_preserves bl now m allow_old a b ha)
      routes st h
  | timeout =>
    rw [chatStep_timeout]
    split
    · refine ⟨ambe_extend h.1 ?_, ?_⟩
      · intro r us hmem u hu
        obtain ⟨_, _, hus⟩ := flush_album_mem hmem
        subst hus
        obtain ⟨mm, hmm, rfl⟩ := List.mem_map.mp hu
        rw [normalize_source_id]
        exact h.2 mm (sortById_mem.mp hmm)
      · intro mm hmm
        simp at hmm
    · exact h

/-- Run-level invariant: on every run, every album enqueue only carries
messages marked strictly earlier, and buffered messages are marked. -/
theorem runChat_marked_invariant (bl : List String) (routes : List Route)
    (marked0 : List (String × Int)) (evs : List Listener.ChatEvent) :
    Listener.albumsMarkedBeforeEnqueue (Listener.runChat bl routes marked0 evs).trace
    ∧ ∀ mm ∈ (Listener.runChat bl routes marked0 evs).album.album_messages,
        Listener.markedIn (Listener.runChat bl routes marked0 evs).trace mm.id := by
  unfold Listener.runChat
  refine foldl_inv (fun a b ha => chatStep_preserves bl routes a b ha) evs _
    ⟨?_, ?_⟩
  · intro t1 r us t2 heq u hu
    cases t1 <;> simp at heq
  · intro mm hmm
    simp at hmm

/-- The for-route loop body preserves sortedness of every flushed batch
in the trace. -/
theorem routeStep_sorted (bl : List String) (now : Int) (m : TLMessage)
    (allow_old : Bool) (st : Listener.RunState) (route : Route)
    (h : ∀ r us, Listener.Effect.enqueueAlbum r us ∈ st.trace →
      us.Pairwise (fun a b => a.source_message_id ≤ b.source_message_id)) :
    ∀ r us, Listener.Effect.enqueueAlbum r us
        ∈ (Listener.routeStep bl now m allow_old st route).trace →
      us.Pairwise (fun a b => a.source_message_id ≤ b.source_message_id) := by
  unfold Listener.routeStep
  split
  · intro r us hmem
    rcases List.mem_append.mp hmem with hmem | hmem
    · exact h r us hmem
    · obtain ⟨_, _, hus⟩ := handleAdmitted_album_mem hmem
      subst hus
      exact sortById_map_sorted _
  · exact h

/-- One loop iteration preserves sortedness of every flushed batch. -/
theorem chatStep_sorted (bl : List String) (routes : List Route)
    (st : Listener.RunState) (ev : Listener.ChatEvent)
    (h : ∀ r us, Listener.Effect.enqueueAlbum r us ∈ st.trace →
      us.Pairwise (fun a b => a.source_message_id ≤ b.source_message_id)) :
    ∀ r us, Listener.Effect.enqueueAlbum r us ∈ (Listener.chatStep bl routes st ev).trace →
      us.Pairwise (fun a b => a.source_message_id ≤ b.source_message_id) := by
  cases ev with
  | recv now m allow_old =>
    rw [chatStep_recv]
    exact foldl_inv (fun a b ha => routeStep_sorted bl now m allow_old a b ha)
      routes st h
  | timeout =>
    rw [chatStep_timeout]
    split
    · intro r us hmem
      rcases List.mem_append.mp hmem with hmem | hmem
      · exact h r us hmem
      · obtain ⟨_, _, hus⟩ := flush_album_mem hmem
        subst hus
        exact sortById_map_sorted _
    · exact h

/-- Run-level sortedness of every flushed batch. -/
theorem runChat_sorted (bl : List String) (routes : List Route)
    (marked0 : List (String × Int)) (evs : List Listener.ChatEvent) :
    ∀ r us, Listener.Effect.enqueueAlbum r us ∈ (Listener.runChat bl routes marked0 evs).trace →
      us.Pairwise (fun a b => a.source_message_id ≤ b.source_message_id) := by
  unfold Listener.runChat
  refine foldl_inv (fun a b ha => chatStep_sorted bl routes a b ha) evs _ ?_
  intro r us hmem
  simp at hmem

/-- C1 counterexample: on the run admitting one standalone message, the
trace is exactly queue.put followed by add_processed, so the mark of
message 1 appears strictly after its enqueue — _process_single_message
enqueues first and marks afterwards, contradicting the claimed
"never after the enqueue". -/
theorem C1_standalone_marked_after_enqueue : ¬ Listener.claimMarkBeforeEnqueue := by
  intro h
  have h1 := h [] [exRoute] [] [Listener.ChatEvent.recv 0 exStandalone false]
  have h2 := h1
    [Listener.Effect.enqueueSingle exRoute (Normalizer.normalize exStandalone)]
    (Listener.Effect.markProcessed exRoute 1 none) [] (by decide) 1 (by decide)
    (Listener.Effect.enqueueSingle exRoute (Normalizer.normalize exStandalone))
    (List.mem_singleton.mpr rfl)
  exact absurd h2 (by decide)

/-- C1 amended: the ProcessedRecord of an album part is inserted at
admission, strictly before the flush that enqueues its batch, on every
run; the ProcessedRecord of a standalone message is inserted immediately
after its enqueue (queue.put then add_processed), never before. -/
theorem C1_mark_order_amended :
    (∀ (bl : List String) (routes : List Route) (marked0 : List (String × Int))
        (evs : List Listener.ChatEvent),
      Listener.albumsMarkedBeforeEnqueue (Listener.runChat bl routes marked0 evs).trace)
    ∧ (∀ (s : Listener.AlbumState) (m : TLMessage) (route : Route),
        truthyOpt m.grouped_id = false →
        ∃ pre0, (Listener.handleAdmitted s m route).2
          = pre0 ++ [Listener.Effect.enqueueSingle route (Normalizer.normalize m),
                     Listener.Effect.markProcessed route m.id none]) := by
  constructor
  · intro bl routes marked0 evs
    exact (runChat_marked_invariant bl routes marked0 evs).1
  · intro s m route hg
    by_cases hsome : s.album_id.isSome = true
    · rw [handleAdmitted_single_flush route hg hsome]
      exact ⟨Listener.flush_album s.album_route s.album_messages, rfl⟩
    · rw [handleAdmitted_single_idle route hg (Bool.eq_false_iff.mpr hsome)]
      exact ⟨[], rfl⟩

/-- C1 amended, witness: the album run exAlbumEvs satisfies
mark-before-album-enqueue, and the standalone admission from the idle
state emits enqueue-then-mark. -/
theorem C1_mark_order_amended_witness :
    Listener.albumsMarkedBeforeEnqueue
      (Listener.runChat [] [exRoute] [] exAlbumEvs).trace
    ∧ ∃ pre0, (Listener.handleAdmitted {} exStandalone exRoute).2
        = pre0 ++ [Listener.Effect.enqueueSingle exRoute
                     (Normalizer.normalize exStandalone),
                   Listener.Effect.markProcessed exRoute exStandalone.id none] :=
  ⟨C1_mark_order_amended.1 [] [exRoute] [] exAlbumEvs,
   C1_mark_order_amended.2 {} exStandalone exRoute rfl⟩

/-- C3: on every run, every album batch put on the outbound queue is a
single list sorted ascending by source message id — whatever the arrival
interleaving; and _flush_album of a nonempty buffer emits exactly one
enqueue, carrying the id-sorted normalization of the buffer (a
permutation of the normalized parts). -/
theorem C3_album_flush_sorted :
    (∀ (bl : List String) (routes : List Route) (marked0 : List (String × Int))
        (evs : List Listener.ChatEvent) (r : Route) (us : List UnifiedMessage),
      Listener.Effect.enqueueAlbum r us ∈ (Listener.runChat bl routes marked0 evs).trace →
      us.Pairwise (fun a b => a.source_message_id ≤ b.source_message_id))
    ∧ (∀ (r : Route) (ms : List TLMessage), ms ≠ [] →
        Listener.flush_album (some r) ms
          = [Listener.Effect.enqueueAlbum r
              ((Listener.sortById ms).map Normalizer.normalize)]
        ∧ ((Listener.sortById ms).map Normalizer.normalize).Perm
            (ms.map Normalizer.normalize)) := by
  constructor
  · intro bl routes marked0 evs r us hmem
    exact runChat_sorted bl routes marked0 evs r us hmem
  · intro r ms hne
    refine ⟨?_, List.Perm.map _ (List.perm_insertionSort Listener.msgLe ms)⟩
    simp [Listener.flush_album, hne]

/-- C3 witness: the run where parts 10 and 9 of album 7 arrive in that
order flushes one batch, sorted 9 before 10. -/
theorem C3_album_flush_sorted_witness :
    ((Listener.sortById [exAlbum10, exAlbum9]).map Normalizer.normalize).Pairwise
      (fun a b => a.source_message_id ≤ b.source_message_id)
    ∧ Listener.flush_album (some exRoute) [exAlbum10, exAlbum9]
        = [Listener.Effect.enqueueAlbum exRoute
            ((Listener.sortById [exAlbum10, exAlbum9]).map Normalizer.normalize)] :=
  ⟨C3_album_flush_sorted.1 [] [exRoute] [] exAlbumEvs exRoute
      ((Listener.sortById [exAlbum10, exAlbum9]).map Normalizer.normalize)
      (by decide),
   (C3_album_flush_sorted.2 exRoute [exAlbum10, exAlbum9] (by decide)).1⟩

/-- C4: a standalone message admitted while an album is collecting makes
the processor emit the album flush first and the standalone enqueue
after it; with a nonempty buffer the trace of the step is exactly the
album enqueue, then the standalone enqueue, then the standalone mark. -/
theorem C4_standalone_flushes_album_first (s : Listener.AlbumState) (m : TLMessage)
    (route : Route) (hm : m.grouped_id = none) (hsome : s.album_id.isSome = true) :
    (Listener.handleAdmitted s m route).2
      = Listener.flush_album s.album_route s.album_messages
        ++ [Listener.Effect.enqueueSingle route (Normalizer.normalize m),
            Listener.Effect.markProcessed route m.id none]
    ∧ ∀ r, s.album_route = some r → s.album_messages ≠ [] →
        (Listener.handleAdmitted s m route).2
          = Listener.Effect.enqueueAlbum r
              ((Listener.sortById s.album_messages).map Normalizer.normalize)
            :: [Listener.Effect.enqueueSingle route (Normalizer.normalize m),
                Listener.Effect.markProcessed route m.id none] := by
  have hg : truthyOpt m.grouped_id = false := by rw [hm]; rfl
  have heq := handleAdmitted_single_flush route hg hsome
  constructor
  · rw [heq]
    rfl
  · intro r hr hne
    rw [heq]
    show Listener.flush_album s.album_route s.album_messages
        ++ Listener.processSingleEffects route m = _
    rw [hr]
    simp [Listener.flush_album, hne, Listener.processSingleEffects]

/-- C4 witness: message 11 admitted while album 7 (holding part 10) is
collecting — the album enqueue precedes the standalone enqueue. -/
theorem C4_standalone_flushes_album_first_witness :
    (Listener.handleAdmitted exPendingAlbum exStandalone11 exRoute).2
      = Listener.Effect.enqueueAlbum exRoute
          ((Listener.sortById [exAlbum10]).map Normalizer.normalize)
        :: [Listener.Effect.enqueueSingle exRoute (Normalizer.normalize exStandalone11),
            Listener.Effect.markProcessed exRoute exStandalone11.id none] :=
  (C4_standalone_flushes_album_first exPendingAlbum exStandalone11 exRoute rfl rfl).2
    exRoute rfl (by decide)
